import Mathlib

/-!
Verification of the HTTP handler layer of `buzzapp/users` (`handlers.go`).

The file shallowly embeds the four request handlers (`handleCreateUser`,
`handleGetUserByID`, `handleLoginUser`, `handleRefreshToken`) and the shared
error helper `respondWithError`.  External collaborators — the `UserService`
interface, the per-request validation functions and the JWT wire format — are
modelled as explicit parameters bundled in an `Env`, mirroring how the Go code
receives `svc` by injection and calls free functions for the rest.

JSON values are modelled by an inductive `Json`; an HTTP request carries the
result of decoding its raw body (`Except String Json`, where `.error e` means
the body is not well-formed JSON and every DTO decode fails with `e`, exactly
as `json.NewDecoder(r.Body).Decode` does), the `Referer` header and the `mux`
route variable `id`.

The `net/http` response writer is modelled by `ResponseWriter` with the
documented semantics of the Go standard library: changing the header map after
a call to `WriteHeader` (or `Write`) has no effect on the wire, a superfluous
`WriteHeader` is ignored, and `Write` performs an implicit `WriteHeader 200`.
The `headers` field holds the headers actually transmitted.
-/

/-- JSON values (no array constructor: the handlers never produce one). -/
inductive Json where
  | str (s : String)
  | num (n : Int)
  | jnull
  | obj (fields : List (String × Json))
deriving Repr

/-- Model of `model.User` — identifier, username, email, first/last name, role
(spec §3; the `model` package is repository code outside this excerpt). -/
structure User where
  id : String
  username : String
  email : String
  firstName : String
  lastName : String
  role : String
deriving Repr, DecidableEq

/-- Model of `model.CreateUser` — the value built at `handlers.go:32-39` and passed to
`svc.Create`; exactly the six fields assigned there. -/
structure CreateUser where
  email : String
  firstName : String
  lastName : String
  password : String
  role : String
  username : String
deriving Repr, DecidableEq

/-- Modelled from the spec: `reqres.CreateUserRequest`, the creation DTO with
email, first name, last name, password, role, username (spec §3, §4.1); the
`reqres` package is repository code outside this excerpt. -/
structure CreateUserRequest where
  email : String
  firstName : String
  lastName : String
  password : String
  role : String
  username : String
deriving Repr, DecidableEq

/-- Modelled from the spec: `reqres.LoginRequest`, username and password
(spec §3, §4.3). -/
structure LoginRequest where
  username : String
  password : String
deriving Repr, DecidableEq

/-- Modelled from the spec: `reqres.RefreshTokenRequest`, carrying an existing
signed token string (spec §3, §4.4). -/
structure RefreshTokenRequest where
  token : String
deriving Repr, DecidableEq

/-- Modelled from the spec: `reqres.ErrorResponse`, the single-field message
envelope for failures (spec §3). -/
structure ErrorResponse where
  message : String
deriving Repr, DecidableEq

/-- An incoming HTTP request, as far as the handlers observe it:
`rawBody` is the result of reading the body as JSON (`.error e` = malformed
JSON, the decoder fails with error text `e`), `referer` is `r.Referer()`,
`muxVarId` is `mux.Vars(r)["id"]`. -/
structure Request where
  rawBody : Except String Json
  referer : String
  muxVarId : String

/-- The wire state of a `net/http` response writer. -/
structure ResponseWriter where
  headers : List (String × String)
  status : Option Nat
  wroteHeader : Bool
  body : List Json
deriving Repr

/-- The zero writer handed to a handler. -/
def ResponseWriter.initial : ResponseWriter :=
  { headers := [], status := none, wroteHeader := false, body := [] }

/-- Models `w.Header().Set(k, v)`: replaces the header `k` on the wire, a no-op once
the headers have been written (net/http: changing the header map after a call
to `WriteHeader` has no effect). -/
def ResponseWriter.setHeader (w : ResponseWriter) (k v : String) : ResponseWriter :=
  if w.wroteHeader then w
  else { w with headers := (w.headers.filter (fun kv => kv.1 ≠ k)) ++ [(k, v)] }

/-- Models `w.WriteHeader(code)`: writes the status line and freezes the headers;
a second call is ignored. -/
def ResponseWriter.writeHeader (w : ResponseWriter) (code : Nat) : ResponseWriter :=
  if w.wroteHeader then w
  else { w with status := some code, wroteHeader := true }

/-- Models `w.Write(js)`: appends a body chunk, performing the implicit
`WriteHeader 200` if the headers are not yet written. -/
def ResponseWriter.write (w : ResponseWriter) (j : Json) : ResponseWriter :=
  let w := w.writeHeader 200
  { w with body := w.body ++ [j] }

/-- Field lookup in a JSON object (first binding wins). -/
def lookupField (k : String) : List (String × Json) → Option Json
  | [] => none
  | (k₂, v) :: rest => if k₂ = k then some v else lookupField k rest

/-- Models `encoding/json` decoding of one string-typed struct field: absent means
the zero value `""`, a non-string value is an unmarshal type error. -/
def getStrField (fs : List (String × Json)) (k : String) : Except String String :=
  match lookupField k fs with
  | some (Json.str s) => Except.ok s
  | some _ => Except.error ("json: cannot unmarshal value into string field " ++ k)
  | none => Except.ok ""

/-- Modelled from the spec: decoding the request body into
`reqres.CreateUserRequest` (JSON keys follow the field names; the exact tags
live in the `reqres` package outside this excerpt and no claim depends on
them). A malformed body propagates the decoder error. -/
def decodeCreateUserRequest : Except String Json → Except String CreateUserRequest
  | Except.error e => Except.error e
  | Except.ok (Json.obj fs) => do
      let email ← getStrField fs "email"
      let firstName ← getStrField fs "first_name"
      let lastName ← getStrField fs "last_name"
      let password ← getStrField fs "password"
      let role ← getStrField fs "role"
      let username ← getStrField fs "username"
      Except.ok { email := email, firstName := firstName, lastName := lastName,
                  password := password, role := role, username := username }
  | Except.ok _ => Except.error "json: cannot unmarshal value into CreateUserRequest"

/-- Modelled from the spec: decoding into `reqres.LoginRequest`. -/
def decodeLoginRequest : Except String Json → Except String LoginRequest
  | Except.error e => Except.error e
  | Except.ok (Json.obj fs) => do
      let username ← getStrField fs "username"
      let password ← getStrField fs "password"
      Except.ok { username := username, password := password }
  | Except.ok _ => Except.error "json: cannot unmarshal value into LoginRequest"

/-- Modelled from the spec: decoding into `reqres.RefreshTokenRequest`. -/
def decodeRefreshTokenRequest : Except String Json → Except String RefreshTokenRequest
  | Except.error e => Except.error e
  | Except.ok (Json.obj fs) => do
      let token ← getStrField fs "token"
      Except.ok { token := token }
  | Except.ok _ => Except.error "json: cannot unmarshal value into RefreshTokenRequest"

/-- JWT signing methods as compared at `handlers.go:156`
(`token.Method != jwt.SigningMethodHS256`). -/
inductive SigningMethod where
  | HS256
  | RS256
  | noneAlg
  | other (name : String)
deriving Repr, DecidableEq

/-- The parse-relevant content of a JWT compact string: whether it splits into
three valid segments, the `alg` of its header, its decoded claims, whether its
signature verifies under `[]byte(SecretKey)` (the process-wide secret,
`handlers.go:159`), and whether its registered time claims fail validation
(expired / not yet valid). This abstracts the base64/HMAC wire format, which
a shallow embedding cannot compute. -/
structure RawToken where
  wellFormed : Bool
  method : SigningMethod
  claims : List (String × Json)
  sigValid : Bool
  expired : Bool

/-- A parsed `jwt.Token` as the handler observes it: its claims map and the
`Valid` flag. -/
structure JwtToken where
  claims : List (String × Json)
  valid : Bool

/-- Models `jwt.Parse(payload.Token, keyfunc)` with the keyfunc of
`handlers.go:154-160`: segments are decoded first; the keyfunc rejects any
method other than HS256 (`handlers.go:156-157`); then the signature is checked
against the secret and the registered claims are validated.  As in
`dgrijalva/jwt-go`, the error is nil exactly when the token is `Valid`. -/
def jwtParse (t : RawToken) : Except String JwtToken :=
  if ¬ t.wellFormed then
    Except.error "token contains an invalid number of segments"
  else if t.method ≠ SigningMethod.HS256 then
    Except.error "Unexpected signing method"
  else if ¬ t.sigValid then
    Except.error "signature is invalid"
  else if t.expired then
    Except.error "Token is expired"
  else
    Except.ok { claims := t.claims, valid := true }

/-- The string type assertion `token.Claims[k].(string)`: `some s` when the
claim is present and a string, `none` when the assertion would panic (claim
absent — a nil interface — or of another dynamic type). -/
def claimString (claims : List (String × Json)) (k : String) : Option String :=
  match lookupField k claims with
  | some (Json.str s) => some s
  | _ => none

/-- A recorded invocation of a `UserService` method, with its arguments. -/
inductive ServiceCall where
  | create (u : CreateUser)
  | getByID (id : String)
  | login (username password referer : String)
  | refreshToken (sub username role referer : String)
deriving Repr, DecidableEq

/-- The `UserService` collaborator (`Create`, `GetByID`, `Login`,
`RefreshToken`); each method returns a value or a Go error string. -/
structure UserService where
  create : CreateUser → Except String User
  getByID : String → Except String User
  login : String → String → String → Except String String
  refreshToken : String → String → String → String → Except String String

/-- The external collaborators a handler closure captures: the injected
service, the validation functions (`some e` = validation error `e`), and the
interpretation of token strings as JWT wire data (abstracting `jwt.Parse`'s
segment/base64 layer). -/
structure Env where
  svc : UserService
  validateCreateUser : CreateUserRequest → Option String
  validateGetUserByID : String → Option String
  validateLoginUser : LoginRequest → Option String
  validateRefreshToken : RefreshTokenRequest → Option String
  jwtDecode : String → RawToken

/-- A finished request: either a written HTTP response together with the list
of service calls made, or an aborted handler (runtime panic, nothing written,
no service call made). -/
inductive Outcome where
  | respond (w : ResponseWriter) (calls : List ServiceCall)
  | panicked (msg : String)

/-- The status line of an outcome (`none` when the handler panicked). -/
def Outcome.status : Outcome → Option Nat
  | Outcome.respond w _ => w.status
  | Outcome.panicked _ => none

/-- The service calls an outcome records. -/
def Outcome.calls : Outcome → List ServiceCall
  | Outcome.respond _ cs => cs
  | Outcome.panicked _ => []

/-- The transmitted headers of an outcome. -/
def Outcome.headers : Outcome → List (String × String)
  | Outcome.respond w _ => w.headers
  | Outcome.panicked _ => []

/-- The transmitted body chunks of an outcome. -/
def Outcome.bodyChunks : Outcome → List Json
  | Outcome.respond w _ => w.body
  | Outcome.panicked _ => []

/-- Models `json.Marshal` on the response DTOs.  On these structs of strings Go's
marshaller cannot fail, so the model always returns `.ok`; the handlers keep
the error branch to mirror the source. -/
def jsonMarshalError (e : ErrorResponse) : Except String Json :=
  Except.ok (Json.obj [("message", Json.str e.message)])

/-- Modelled from the spec: `reqres.CreateUserResponse{User: user}` marshals
with the user embedded under the key `user` (spec §8). -/
def jsonMarshalCreateUserResponse (u : User) : Except String Json :=
  Except.ok (Json.obj [("user",
    Json.obj [("id", Json.str u.id), ("username", Json.str u.username),
              ("email", Json.str u.email), ("first_name", Json.str u.firstName),
              ("last_name", Json.str u.lastName), ("role", Json.str u.role)])])

/-- Modelled from the spec: `reqres.GetUserResponse{User: user}`, the user
under `user` (spec §4.2). -/
def jsonMarshalGetUserResponse (u : User) : Except String Json :=
  Except.ok (Json.obj [("user",
    Json.obj [("id", Json.str u.id), ("username", Json.str u.username),
              ("email", Json.str u.email), ("first_name", Json.str u.firstName),
              ("last_name", Json.str u.lastName), ("role", Json.str u.role)])])

/-- Modelled from the spec: `reqres.LoginResponse{Token: token}`, the token
under `token` (spec §4.3). -/
def jsonMarshalLoginResponse (token : String) : Except String Json :=
  Except.ok (Json.obj [("token", Json.str token)])

/-- Embedding of `respondWithError` (`handlers.go:195-208`): builds
`ErrorResponse{Message: msg + ": " + err.Error()}`, marshals it, sets
`Content-Type: application/json`, writes the status, writes the body.  The
marshal-failure branch (dead for a struct of one string) sets the charset
variant and writes no body, as in the source. -/
def respondWithError (msg : String) (err : String) (w : ResponseWriter)
    (status : Nat) : ResponseWriter :=
  let errMsg : ErrorResponse := { message := msg ++ ": " ++ err }
  match jsonMarshalError errMsg with
  | Except.error _ =>
      ((w.setHeader "Content-Type" "application/json; charset=UTF-8").writeHeader status)
  | Except.ok js =>
      (((w.setHeader "Content-Type" "application/json").writeHeader status).write js)

/-- Embedding of `handleCreateUser` (`handlers.go:16-63`). -/
def handleCreateUser (env : Env) (r : Request) : Outcome :=
  let w := ResponseWriter.initial
  match decodeCreateUserRequest r.rawBody with
  | Except.error e =>
      Outcome.respond (respondWithError "unable to decode json request" e w 500) []
  | Except.ok payload =>
    match env.validateCreateUser payload with
    | some e => Outcome.respond (respondWithError "Validation error" e w 400) []
    | none =>
      let newUser : CreateUser :=
        { email := payload.email, firstName := payload.firstName,
          lastName := payload.lastName, password := payload.password,
          role := payload.role, username := payload.username }
      match env.svc.create newUser with
      | Except.error e =>
          Outcome.respond (respondWithError "unable to add user" e w 500)
            [ServiceCall.create newUser]
      | Except.ok user =>
        match jsonMarshalCreateUserResponse user with
        | Except.error e =>
            Outcome.respond (respondWithError "unable to marshal json response" e w 500)
              [ServiceCall.create newUser]
        | Except.ok js =>
            Outcome.respond (((w.writeHeader 201).setHeader "Content-Type" "application/json").write js)
              [ServiceCall.create newUser]

/-- Embedding of `handleGetUserByID` (`handlers.go:65-98`). -/
def handleGetUserByID (env : Env) (r : Request) : Outcome :=
  let w := ResponseWriter.initial
  let id := r.muxVarId
  match env.validateGetUserByID id with
  | some e => Outcome.respond (respondWithError "Validation error" e w 400) []
  | none =>
    match env.svc.getByID id with
    | Except.error e =>
        Outcome.respond (respondWithError "unable to get user" e w 500)
          [ServiceCall.getByID id]
    | Except.ok user =>
      match jsonMarshalGetUserResponse user with
      | Except.error e =>
          Outcome.respond (respondWithError "unable to marshal json response" e w 500)
            [ServiceCall.getByID id]
      | Except.ok js =>
          Outcome.respond (((w.writeHeader 200).setHeader "Content-Type" "application/json").write js)
            [ServiceCall.getByID id]

/-- Embedding of `handleLoginUser` (`handlers.go:100-137`). -/
def handleLoginUser (env : Env) (r : Request) : Outcome :=
  let w := ResponseWriter.initial
  match decodeLoginRequest r.rawBody with
  | Except.error e =>
      Outcome.respond (respondWithError "unable to decode json request" e w 500) []
  | Except.ok payload =>
    match env.validateLoginUser payload with
    | some e => Outcome.respond (respondWithError "Validation error" e w 400) []
    | none =>
      match env.svc.login payload.username payload.password r.referer with
      | Except.error e =>
          Outcome.respond (respondWithError "unable to log in user" e w 400)
            [ServiceCall.login payload.username payload.password r.referer]
      | Except.ok token =>
        match jsonMarshalLoginResponse token with
        | Except.error e =>
            Outcome.respond (respondWithError "unable to marshal json response" e w 500)
              [ServiceCall.login payload.username payload.password r.referer]
        | Except.ok js =>
            Outcome.respond (((w.writeHeader 200).setHeader "Content-Type" "application/json").write js)
              [ServiceCall.login payload.username payload.password r.referer]

/-- Tail of `handleRefreshToken` after `jwt.Parse` has returned (`handlers.go:161-191`):
the error branch (403), the `!token.Valid` branch (403), the claim extraction
with its three unchecked string type assertions, the service call and the
200 response. -/
def refreshAfterParse (env : Env) (r : Request)
    (parseResult : Except String JwtToken) : Outcome :=
  let w := ResponseWriter.initial
  match parseResult with
  | Except.error e =>
      Outcome.respond (respondWithError "Access not allowed" e w 403) []
  | Except.ok token =>
    if ¬ token.valid then
      Outcome.respond (respondWithError "Access not allowed" "Invalid jwt token" w 403) []
    else
      match claimString token.claims "sub", claimString token.claims "username",
            claimString token.claims "role" with
      | some sub, some username, some role =>
        match env.svc.refreshToken sub username role r.referer with
        | Except.error e =>
            Outcome.respond (respondWithError "unable to refresh token" e w 500)
              [ServiceCall.refreshToken sub username role r.referer]
        | Except.ok jwtToken =>
          match jsonMarshalLoginResponse jwtToken with
          | Except.error e =>
              Outcome.respond (respondWithError "unable to marshal json response" e w 500)
                [ServiceCall.refreshToken sub username role r.referer]
          | Except.ok js =>
              Outcome.respond (((w.writeHeader 200).setHeader "Content-Type" "application/json").write js)
                [ServiceCall.refreshToken sub username role r.referer]
      | _, _, _ =>
          Outcome.panicked "interface conversion: claim is nil or not a string"

/-- Embedding of `handleRefreshToken` (`handlers.go:139-192`). -/
def handleRefreshToken (env : Env) (r : Request) : Outcome :=
  let w := ResponseWriter.initial
  match decodeRefreshTokenRequest r.rawBody with
  | Except.error e =>
      Outcome.respond (respondWithError "unable to decode json request" e w 500) []
  | Except.ok payload =>
    match env.validateRefreshToken payload with
    | some e => Outcome.respond (respondWithError "Validation error" e w 400) []
    | none =>
      refreshAfterParse env r (jwtParse (env.jwtDecode payload.token))

/-! ## Concrete fixtures used by witnesses and counterexamples -/

/-- A sample stored user. -/
def userA : User :=
  { id := "42", username := "alice", email := "alice@example.com",
    firstName := "Alice", lastName := "Smith", role := "admin" }

/-- A service whose four methods all succeed. -/
def svcOk : UserService :=
  { create := fun u => Except.ok
      { id := "42", username := u.username, email := u.email,
        firstName := u.firstName, lastName := u.lastName, role := u.role },
    getByID := fun i => Except.ok { userA with id := i },
    login := fun _ _ _ => Except.ok "login-token",
    refreshToken := fun _ _ _ _ => Except.ok "fresh-token" }

/-- A well-formed token signed with RS256 instead of HS256. -/
def tokWrongMethod : RawToken :=
  { wellFormed := true, method := SigningMethod.RS256, claims := [],
    sigValid := true, expired := false }

/-- A token that verifies under the secret and carries the three string claims
of the spec example. -/
def tokGood : RawToken :=
  { wellFormed := true, method := SigningMethod.HS256,
    claims := [("sub", Json.str "u1"), ("username", Json.str "alice"),
               ("role", Json.str "admin")],
    sigValid := true, expired := false }

/-- A token that verifies but whose `sub` claim is a number, not a string. -/
def tokBadClaims : RawToken :=
  { wellFormed := true, method := SigningMethod.HS256,
    claims := [("sub", Json.num 5)], sigValid := true, expired := false }

/-- An environment whose validators accept everything and whose token strings
all decode to the given wire token. -/
def envOf (jd : String → RawToken) : Env :=
  { svc := svcOk, validateCreateUser := fun _ => none,
    validateGetUserByID := fun _ => none, validateLoginUser := fun _ => none,
    validateRefreshToken := fun _ => none, jwtDecode := jd }

/-- Environment in which every token is RS256-signed. -/
def envWrongMethod : Env := envOf fun _ => tokWrongMethod

/-- Environment in which every token is the good HS256 token. -/
def envGood : Env := envOf fun _ => tokGood

/-- Environment in which every token verifies but has a non-string `sub`. -/
def envBadClaims : Env := envOf fun _ => tokBadClaims

/-- Environment whose validators all reject. -/
def envReject : Env :=
  { svc := svcOk,
    validateCreateUser := fun _ => some "email is a required field",
    validateGetUserByID := fun _ => some "id must be numeric",
    validateLoginUser := fun _ => some "username is a required field",
    validateRefreshToken := fun _ => some "token is a required field",
    jwtDecode := fun _ => tokGood }

/-- A refresh request carrying a token string. -/
def reqTok : Request :=
  { rawBody := Except.ok (Json.obj [("token", Json.str "jwt-string")]),
    referer := "https://app.example.com", muxVarId := "" }

/-- A request whose body is not well-formed JSON. -/
def reqBad : Request :=
  { rawBody := Except.error "unexpected EOF", referer := "", muxVarId := "7" }

/-- A complete, valid create-user payload. -/
def reqCreate : Request :=
  { rawBody := Except.ok (Json.obj
      [("email", Json.str "alice@example.com"), ("first_name", Json.str "Alice"),
       ("last_name", Json.str "Smith"), ("password", Json.str "pw"),
       ("role", Json.str "admin"), ("username", Json.str "alice")]),
    referer := "", muxVarId := "" }

/-- A request with an empty JSON object body. -/
def reqEmpty : Request :=
  { rawBody := Except.ok (Json.obj []), referer := "", muxVarId := "9" }

/-! ## Helper lemmas (shared) -/

/-- On a fresh writer, `respondWithError` transmits exactly the
`Content-Type: application/json` header, the given status, and the one-field
message object. -/
theorem respondWithError_initial (msg err : String) (status : Nat) :
    respondWithError msg err ResponseWriter.initial status =
      { headers := [("Content-Type", "application/json")], status := some status,
        wroteHeader := true,
        body := [Json.obj [("message", Json.str (msg ++ ": " ++ err))]] } := rfl

/-- A token whose method is not HS256 never parses successfully. -/
theorem jwtParse_error_of_method (t : RawToken)
    (h : t.method ≠ SigningMethod.HS256) : ∃ e, jwtParse t = Except.error e := by
  unfold jwtParse
  by_cases hw : t.wellFormed
  · simp [hw, h]
  · simp [hw]

/-! ## Claims -/

/-- Claim C8: every error response produced by any handler goes through
`respondWithError` on a fresh writer, and its body is the single-field JSON
object whose `message` is the handler's context string, a colon and a space,
then the underlying error text. -/
theorem error_response_shape (msg err : String) (status : Nat) :
    (respondWithError msg err ResponseWriter.initial status).body =
      [Json.obj [("message", Json.str (msg ++ ": " ++ err))]] := rfl

/-- Claim C1: if the refresh request decodes and validates but the supplied
token is signed with a method other than HMAC-SHA256, the response status is
403 and no `UserService` method is called. -/
theorem refresh_wrong_method_403 (env : Env) (r : Request)
    (p : RefreshTokenRequest)
    (hdec : decodeRefreshTokenRequest r.rawBody = Except.ok p)
    (hval : env.validateRefreshToken p = none)
    (hm : (env.jwtDecode p.token).method ≠ SigningMethod.HS256) :
    (handleRefreshToken env r).status = some 403 ∧
    (handleRefreshToken env r).calls = [] := by
  obtain ⟨e, he⟩ := jwtParse_error_of_method _ hm
  simp only [handleRefreshToken, hdec, hval, he, refreshAfterParse]
  exact ⟨rfl, rfl⟩

/-- Witness for C1 at a concrete RS256-signed token. -/
theorem refresh_wrong_method_403_witness :
    (handleRefreshToken envWrongMethod reqTok).status = some 403 ∧
    (handleRefreshToken envWrongMethod reqTok).calls = [] :=
  refresh_wrong_method_403 envWrongMethod reqTok { token := "jwt-string" }
    rfl rfl (by decide)

/-- Claim C10: in the code after `jwt.Parse` returns, the service is reached
only when the parse produced no error and the token is `Valid`; a token that
parses without error but is marked invalid gets a 403 and no service call. -/
theorem refresh_service_guarded (env : Env) (r : Request)
    (pr : Except String JwtToken) :
    ((refreshAfterParse env r pr).calls ≠ [] →
      ∃ t, pr = Except.ok t ∧ t.valid = true) ∧
    (∀ t, pr = Except.ok t → t.valid = false →
      (refreshAfterParse env r pr).status = some 403 ∧
      (refreshAfterParse env r pr).calls = []) := by
  constructor
  · intro hne
    cases pr with
    | error e => simp [refreshAfterParse, Outcome.calls] at hne
    | ok t =>
      refine ⟨t, rfl, ?_⟩
      by_cases hv : t.valid
      · exact hv
      · exact absurd (by simp [refreshAfterParse, hv, Outcome.calls]) hne
  · intro t ht hv
    subst ht
    simp only [refreshAfterParse, hv]
    exact ⟨rfl, rfl⟩

/-- Witness for C10 at a concrete parse result marked invalid. -/
theorem refresh_service_guarded_witness :
    (refreshAfterParse envGood reqTok
        (Except.ok { claims := [], valid := false })).status = some 403 ∧
    (refreshAfterParse envGood reqTok
        (Except.ok { claims := [], valid := false })).calls = [] :=
  (refresh_service_guarded envGood reqTok
      (Except.ok { claims := [], valid := false })).2
    { claims := [], valid := false } rfl rfl

/-- Claim C9: there is a refresh request whose token parses and verifies
successfully (no parse error, `Valid` true) but whose `sub` claim is a number
rather than a string, on which the handler aborts with a runtime panic from
the failed string type assertion and writes no HTTP response. -/
theorem refresh_bad_claims_panics :
    (jwtParse (envBadClaims.jwtDecode "jwt-string") =
      Except.ok { claims := [("sub", Json.num 5)], valid := true }) ∧
    handleRefreshToken envBadClaims reqTok =
      Outcome.panicked "interface conversion: claim is nil or not a string" :=
  ⟨rfl, rfl⟩

/-- Claim C2: a refresh request whose token verifies under the secret with
string claims `sub`, `username`, `role` calls `svc.RefreshToken` exactly once
with those claim values and the Referer header, and on service success the
handler responds 200 with a body carrying the returned token. -/
theorem refresh_valid_token_service (env : Env) (r : Request)
    (p : RefreshTokenRequest) (sub username role newTok : String)
    (hdec : decodeRefreshTokenRequest r.rawBody = Except.ok p)
    (hval : env.validateRefreshToken p = none)
    (hwf : (env.jwtDecode p.token).wellFormed = true)
    (hm : (env.jwtDecode p.token).method = SigningMethod.HS256)
    (hsig : (env.jwtDecode p.token).sigValid = true)
    (hexp : (env.jwtDecode p.token).expired = false)
    (hsub : claimString (env.jwtDecode p.token).claims "sub" = some sub)
    (hun : claimString (env.jwtDecode p.token).claims "username" = some username)
    (hrole : claimString (env.jwtDecode p.token).claims "role" = some role)
    (hsvc : env.svc.refreshToken sub username role r.referer = Except.ok newTok) :
    (handleRefreshToken env r).calls =
      [ServiceCall.refreshToken sub username role r.referer] ∧
    (handleRefreshToken env r).status = some 200 ∧
    (handleRefreshToken env r).bodyChunks =
      [Json.obj [("token", Json.str newTok)]] := by
  have hparse : jwtParse (env.jwtDecode p.token) =
      Except.ok { claims := (env.jwtDecode p.token).claims, valid := true } := by
    unfold jwtParse
    simp [hwf, hm, hsig, hexp]
  simp only [handleRefreshToken, hdec, hval, hparse, refreshAfterParse]
  simp only [Bool.not_true, not_false_eq_true, if_false, ite_false, hsub, hun,
    hrole, hsvc, jsonMarshalLoginResponse]
  exact ⟨rfl, rfl, rfl⟩

/-- Witness for C2 at the spec's example claims. -/
theorem refresh_valid_token_service_witness :
    (handleRefreshToken envGood reqTok).calls =
      [ServiceCall.refreshToken "u1" "alice" "admin" "https://app.example.com"] ∧
    (handleRefreshToken envGood reqTok).status = some 200 ∧
    (handleRefreshToken envGood reqTok).bodyChunks =
      [Json.obj [("token", Json.str "fresh-token")]] :=
  refresh_valid_token_service envGood reqTok { token := "jwt-string" }
    "u1" "alice" "admin" "fresh-token" rfl rfl rfl rfl rfl rfl rfl rfl rfl rfl

/-- Claim C4: in each of the four handlers, an input that fails the handler's
validation function is answered with status 400 and no `UserService` method is
invoked. -/
theorem validation_failure_400 (env : Env) (r : Request) :
    (∀ p e, decodeCreateUserRequest r.rawBody = Except.ok p →
        env.validateCreateUser p = some e →
        (handleCreateUser env r).status = some 400 ∧
        (handleCreateUser env r).calls = []) ∧
    (∀ e, env.validateGetUserByID r.muxVarId = some e →
        (handleGetUserByID env r).status = some 400 ∧
        (handleGetUserByID env r).calls = []) ∧
    (∀ p e, decodeLoginRequest r.rawBody = Except.ok p →
        env.validateLoginUser p = some e →
        (handleLoginUser env r).status = some 400 ∧
        (handleLoginUser env r).calls = []) ∧
    (∀ p e, decodeRefreshTokenRequest r.rawBody = Except.ok p →
        env.validateRefreshToken p = some e →
        (handleRefreshToken env r).status = some 400 ∧
        (handleRefreshToken env r).calls = []) := by
  refine ⟨?_, ?_, ?_, ?_⟩
  · intro p e hdec hval
    simp only [handleCreateUser, hdec, hval]
    exact ⟨rfl, rfl⟩
  · intro e hval
    simp only [handleGetUserByID, hval]
    exact ⟨rfl, rfl⟩
  · intro p e hdec hval
    simp only [handleLoginUser, hdec, hval]
    exact ⟨rfl, rfl⟩
  · intro p e hdec hval
    simp only [handleRefreshToken, hdec, hval]
    exact ⟨rfl, rfl⟩

/-- Witness for C4: rejecting validators at a concrete empty-object body. -/
theorem validation_failure_400_witness :
    ((handleCreateUser envReject reqEmpty).status = some 400 ∧
     (handleCreateUser envReject reqEmpty).calls = []) ∧
    ((handleGetUserByID envReject reqEmpty).status = some 400 ∧
     (handleGetUserByID envReject reqEmpty).calls = []) ∧
    ((handleLoginUser envReject reqEmpty).status = some 400 ∧
     (handleLoginUser envReject reqEmpty).calls = []) ∧
    ((handleRefreshToken envReject reqEmpty).status = some 400 ∧
     (handleRefreshToken envReject reqEmpty).calls = []) :=
  ⟨(validation_failure_400 envReject reqEmpty).1 _ _ rfl rfl,
   (validation_failure_400 envReject reqEmpty).2.1 _ rfl,
   (validation_failure_400 envReject reqEmpty).2.2.1 _ _ rfl rfl,
   (validation_failure_400 envReject reqEmpty).2.2.2 _ _ rfl rfl⟩

/-- Claim C5 (amended): a request whose body is malformed JSON is answered by
each of the three body-decoding handlers (create-user, login, refresh-token)
with status 500 and a message that carries the decoder error after the text
"unable to decode json request". -/
theorem malformed_json_500 (env : Env) (r : Request) (e : String)
    (hbody : r.rawBody = Except.error e) :
    ((handleCreateUser env r).status = some 500 ∧
     (handleCreateUser env r).bodyChunks =
       [Json.obj [("message",
          Json.str ("unable to decode json request: " ++ e))]]) ∧
    ((handleLoginUser env r).status = some 500 ∧
     (handleLoginUser env r).bodyChunks =
       [Json.obj [("message",
          Json.str ("unable to decode json request: " ++ e))]]) ∧
    ((handleRefreshToken env r).status = some 500 ∧
     (handleRefreshToken env r).bodyChunks =
       [Json.obj [("message",
          Json.str ("unable to decode json request: " ++ e))]]) := by
  have h1 : decodeCreateUserRequest r.rawBody = Except.error e := by
    rw [hbody]
    rfl
  have h2 : decodeLoginRequest r.rawBody = Except.error e := by
    rw [hbody]
    rfl
  have h3 : decodeRefreshTokenRequest r.rawBody = Except.error e := by
    rw [hbody]
    rfl
  simp only [handleCreateUser, handleLoginUser, handleRefreshToken, h1, h2, h3]
  exact ⟨⟨rfl, rfl⟩, ⟨rfl, rfl⟩, ⟨rfl, rfl⟩⟩

/-- Counterexample to C5 as stated: the get-user-by-id handler is also a
handler, never reads the request body, and answers a malformed-JSON body with
200, not 500. -/
theorem malformed_json_getUserByID_200 :
    reqBad.rawBody = Except.error "unexpected EOF" ∧
    (handleGetUserByID envGood reqBad).status = some 200 := ⟨rfl, rfl⟩

/-- Witness for the amended C5 at a concrete malformed body. -/
theorem malformed_json_500_witness :
    ((handleCreateUser envGood reqBad).status = some 500 ∧
     (handleCreateUser envGood reqBad).bodyChunks =
       [Json.obj [("message",
          Json.str ("unable to decode json request: " ++ "unexpected EOF"))]]) ∧
    ((handleLoginUser envGood reqBad).status = some 500 ∧
     (handleLoginUser envGood reqBad).bodyChunks =
       [Json.obj [("message",
          Json.str ("unable to decode json request: " ++ "unexpected EOF"))]]) ∧
    ((handleRefreshToken envGood reqBad).status = some 500 ∧
     (handleRefreshToken envGood reqBad).bodyChunks =
       [Json.obj [("message",
          Json.str ("unable to decode json request: " ++ "unexpected EOF"))]]) :=
  malformed_json_500 envGood reqBad "unexpected EOF" rfl

/-- Claim C6: a create-user request that decodes and validates calls
`svc.Create` exactly once with a `CreateUser` whose six fields equal the
decoded request fields, and on service success the handler responds 201 with
the returned user embedded under the key `user`. -/
theorem createUser_success (env : Env) (r : Request) (p : CreateUserRequest)
    (user : User)
    (hdec : decodeCreateUserRequest r.rawBody = Except.ok p)
    (hval : env.validateCreateUser p = none)
    (hsvc : env.svc.create
        { email := p.email, firstName := p.firstName, lastName := p.lastName,
          password := p.password, role := p.role, username := p.username } =
      Except.ok user) :
    (handleCreateUser env r).calls =
      [ServiceCall.create
        { email := p.email, firstName := p.firstName, lastName := p.lastName,
          password := p.password, role := p.role, username := p.username }] ∧
    (handleCreateUser env r).status = some 201 ∧
    (handleCreateUser env r).bodyChunks =
      [Json.obj [("user", Json.obj
        [("id", Json.str user.id), ("username", Json.str user.username),
         ("email", Json.str user.email),
         ("first_name", Json.str user.firstName),
         ("last_name", Json.str user.lastName),
         ("role", Json.str user.role)])]] := by
  simp only [handleCreateUser, hdec, hval, hsvc, jsonMarshalCreateUserResponse]
  exact ⟨rfl, rfl, rfl⟩

/-- Witness for C6 at a complete concrete payload. -/
theorem createUser_success_witness :
    (handleCreateUser envGood reqCreate).calls =
      [ServiceCall.create
        { email := "alice@example.com", firstName := "Alice",
          lastName := "Smith", password := "pw", role := "admin",
          username := "alice" }] ∧
    (handleCreateUser envGood reqCreate).status = some 201 ∧
    (handleCreateUser envGood reqCreate).bodyChunks =
      [Json.obj [("user", Json.obj
        [("id", Json.str "42"), ("username", Json.str "alice"),
         ("email", Json.str "alice@example.com"),
         ("first_name", Json.str "Alice"), ("last_name", Json.str "Smith"),
         ("role", Json.str "admin")])]] :=
  createUser_success envGood reqCreate
    { email := "alice@example.com", firstName := "Alice", lastName := "Smith",
      password := "pw", role := "admin", username := "alice" }
    { id := "42", username := "alice", email := "alice@example.com",
      firstName := "Alice", lastName := "Smith", role := "admin" }
    rfl rfl rfl

/-- Claim C7 (amended): a login request whose body decodes as JSON is answered
with 200 on success and 400 on any other outcome (validation failure or a
`Login` error); 500 remains possible only for bodies that fail to decode. -/
theorem login_failure_code (env : Env) (r : Request) (p : LoginRequest)
    (hdec : decodeLoginRequest r.rawBody = Except.ok p) :
    (handleLoginUser env r).status = some 200 ∨
    (handleLoginUser env r).status = some 400 := by
  simp only [handleLoginUser, hdec]
  cases hval : env.validateLoginUser p with
  | some e =>
    simp only [hval]
    exact Or.inr rfl
  | none =>
    simp only [hval]
    cases hlog : env.svc.login p.username p.password r.referer with
    | error e =>
      simp only [hlog]
      exact Or.inr rfl
    | ok tok =>
      simp only [hlog, jsonMarshalLoginResponse]
      exact Or.inl rfl

/-- Counterexample to C7 as stated: a login request whose body is malformed
JSON does not succeed, yet is answered with 500, so 400 is not the only
failure code of the login endpoint. -/
theorem login_malformed_500 :
    reqBad.rawBody = Except.error "unexpected EOF" ∧
    (handleLoginUser envGood reqBad).status = some 500 := ⟨rfl, rfl⟩

/-- Witness for the amended C7 at a concrete decodable body. -/
theorem login_failure_code_witness :
    (handleLoginUser envGood reqEmpty).status = some 200 ∨
    (handleLoginUser envGood reqEmpty).status = some 400 :=
  login_failure_code envGood reqEmpty
    { username := "", password := "" } rfl

/-- Claim C3 (code bug): the successful create-user path calls `WriteHeader`
before `Header().Set("Content-Type", ...)`, and `net/http` ignores header
changes made after `WriteHeader`, so the 201 response is transmitted without
any `Content-Type` header (Go then sniffs one); only the error path, which
sets the header before writing the status, transmits
`Content-Type: application/json`. -/
theorem create_success_content_type_missing :
    (handleCreateUser envGood reqCreate).status = some 201 ∧
    (handleCreateUser envGood reqCreate).headers = [] ∧
    (respondWithError "Validation error" "e" ResponseWriter.initial 400).headers =
      [("Content-Type", "application/json")] :=
  ⟨rfl, rfl, rfl⟩
